import Mathlib

/-!
Shallow embedding of the SmartShop backend (Python/FastAPI) core:
product/cart data model (`app/models/product.py`, `app/models/cart.py`),
text extractors and the scraper boundary (`app/services/scrapers/base_scraper.py`),
search filtering and the placeholder generator (`app/services/search_service.py`),
and the cart optimizer (`app/services/cart/cart_service.py`).

Python floats are modelled as `ℚ`, Python ints as `ℕ`/`ℤ`, `None` as `Option`,
`datetime` timestamps as `ℕ` instants passed explicitly, and raised exceptions
as `Except String`.
-/

namespace SmartShop

/-! ## Data model: app/models/product.py -/

/-- Platform enum (`Platform` in product.py). -/
inductive Platform where
  | amazon | flipkart | blinkit | zepto | meesho | nykaa | instamart
deriving DecidableEq, Repr

/-- String value of the platform enum member (`platform.value`). -/
def Platform.value : Platform → String
  | .amazon => "amazon"
  | .flipkart => "flipkart"
  | .blinkit => "blinkit"
  | .zepto => "zepto"
  | .meesho => "meesho"
  | .nykaa => "nykaa"
  | .instamart => "instamart"

/-- PlatformType enum (`PlatformType` in product.py). -/
inductive PlatformType where
  | ecommerce | quick_commerce
deriving DecidableEq, Repr

/-- `ProductRating` pydantic model: `rating: float = Field(ge=0.0, le=5.0)`,
`total_reviews: int = Field(ge=0)` (required, no default), optional `rating_text`. -/
structure ProductRating where
  rating : ℚ
  total_reviews : ℤ
  rating_text : Option String := none
deriving DecidableEq, Repr

/-- Pydantic validation of a `ProductRating(...)` construction call: both declared
fields must be supplied (`total_reviews` has no default) and the bounds
`0 ≤ rating ≤ 5`, `0 ≤ total_reviews` must hold; otherwise a `ValidationError`
is raised.  Keyword arguments that are not declared fields (such as
`total_ratings`) are ignored by pydantic and so do not appear here. -/
def ProductRating.model_validate (rating : Option ℚ) (total_reviews : Option ℤ) :
    Except String ProductRating :=
  match rating, total_reviews with
  | none, _ => .error "rating: Field required"
  | _, none => .error "total_reviews: Field required"
  | some r, some t =>
    if 0 ≤ r ∧ r ≤ 5 then
      if 0 ≤ t then .ok { rating := r, total_reviews := t }
      else .error "total_reviews: Input should be greater than or equal to 0"
    else .error "rating: Input should be in the interval [0, 5]"

/-- `DeliveryInfo` pydantic model. -/
structure DeliveryInfo where
  delivery_time : String
  delivery_fee : Option ℚ := none
  free_delivery : Bool := false
  delivery_type : String := "standard"
deriving DecidableEq, Repr

/-- `ProductPrice` pydantic model (offers omitted: never inspected by the
operations under verification). -/
structure ProductPrice where
  current_price : ℚ
  original_price : Option ℚ := none
  currency : String := "INR"
  price_per_unit : Option String := none
deriving DecidableEq, Repr

/-- `ProductImage` pydantic model. -/
structure ProductImage where
  url : String
  alt_text : Option String := none
  is_primary : Bool := false
deriving DecidableEq, Repr

/-- `Product` pydantic model (product.py). `specifications`, `scraped_at` and
stock bookkeeping carry no logic in the verified operations and are omitted. -/
structure Product where
  id : Option String := none
  name : String
  description : Option String := none
  brand : Option String := none
  category : Option String := none
  subcategory : Option String := none
  platform : Platform
  platform_type : PlatformType
  platform_product_id : String
  platform_url : String
  price : ProductPrice
  images : List ProductImage := []
  rating : Option ProductRating := none
  delivery : DeliveryInfo
  availability : Bool := true
  in_stock : Bool := true
  location : Option String := none
deriving DecidableEq, Repr

/-- `ProductSearchRequest` pydantic model (product.py). -/
structure ProductSearchRequest where
  query : String
  platforms : Option (List Platform) := none
  max_price : Option ℚ := none
  min_rating : Option ℚ := none
  category : Option String := none
  location : Option String := none
  limit : ℕ := 20
deriving DecidableEq, Repr

/-! ## Data model: app/models/cart.py -/

/-- `CartItem` pydantic model (cart.py).  `added_at` is a timestamp instant. -/
structure CartItem where
  id : Option String := none
  product : Product
  quantity : ℕ := 1
  selected_platform : Platform
  added_at : ℕ := 0
  notes : Option String := none
deriving DecidableEq, Repr

/-- `CartItem.total_price`: `product.price.current_price * quantity`. -/
def CartItem.total_price (it : CartItem) : ℚ :=
  it.product.price.current_price * it.quantity

/-- `CartItem.total_original_price`: `original_price * quantity` when
`self.product.price.original_price` is truthy (present and nonzero — Python
`if x:` on an `Optional[float]`), else `None`. -/
def CartItem.total_original_price (it : CartItem) : Option ℚ :=
  match it.product.price.original_price with
  | some op => if op = 0 then none else some (op * it.quantity)
  | none => none

/-- `Cart` pydantic model (cart.py). -/
structure Cart where
  id : Option String := none
  user_id : Option String := none
  session_id : Option String := none
  items : List CartItem := []
  created_at : ℕ := 0
  updated_at : ℕ := 0
deriving DecidableEq, Repr

/-- `Cart.total_items`: sum of quantities. -/
def Cart.total_items (c : Cart) : ℕ :=
  (c.items.map CartItem.quantity).sum

/-- `Cart.total_price`: sum of `item.total_price`. -/
def Cart.total_price (c : Cart) : ℚ :=
  (c.items.map CartItem.total_price).sum

/-- `Cart.total_original_price`: per item, `item.total_original_price` when
truthy (`if item.total_original_price:`), else `item.total_price`. -/
def Cart.total_original_price (c : Cart) : ℚ :=
  (c.items.map (fun it =>
    match it.total_original_price with
    | some v => if v = 0 then it.total_price else v
    | none => it.total_price)).sum

/-- `Cart.total_savings = total_original_price - total_price`. -/
def Cart.total_savings (c : Cart) : ℚ :=
  c.total_original_price - c.total_price

/-- The merge key used by `Cart.add_item`: `(product.platform_product_id,
selected_platform)`. -/
def cartKey (it : CartItem) : String × Platform :=
  (it.product.platform_product_id, it.selected_platform)

/-- Inner step of `Cart.add_item`: find the first existing cart item with the
same `product.platform_product_id` and `selected_platform` and bump its
quantity in place; `none` when no item matches. -/
def addToExisting : List CartItem → CartItem → Option (List CartItem)
  | [], _ => none
  | c :: rest, it =>
    if cartKey c = cartKey it then
      some ({ c with quantity := c.quantity + it.quantity } :: rest)
    else
      (addToExisting rest it).map (c :: ·)

/-- `Cart.add_item` (cart.py lines 119-134): merge into the first matching
item, else append; always re-stamp `updated_at` with the current instant. -/
def Cart.add_item (cart : Cart) (item : CartItem) (now : ℕ) : Cart :=
  match addToExisting cart.items item with
  | some items => { cart with items := items, updated_at := now }
  | none => { cart with items := cart.items ++ [item], updated_at := now }

/-- `Cart.remove_item` (cart.py lines 136-143): rebuild the item list without
the matching id; return `True` and re-stamp `updated_at` only when the length
actually dropped.  Note `item.id` is `Optional[str]`, compared with `!=`
against the given id. -/
def Cart.remove_item (cart : Cart) (item_id : String) (now : ℕ) : Bool × Cart :=
  let items := cart.items.filter (fun it => it.id ≠ some item_id)
  if items.length < cart.items.length then
    (true, { cart with items := items, updated_at := now })
  else
    (false, { cart with items := items })

/-! ## Text extractors -/

/-- Python `needle in hay` prefix test on character lists. -/
def startsWithList : List Char → List Char → Bool
  | [], _ => true
  | _ :: _, [] => false
  | n :: ns, h :: hs => n = h && startsWithList ns hs

/-- Python substring containment `needle in hay` on character lists. -/
def containsList (needle : List Char) : List Char → Bool
  | [] => needle.isEmpty
  | h :: hs => startsWithList needle (h :: hs) || containsList needle hs

/-- Python `needle in hay` for strings. -/
def pyIn (needle hay : String) : Bool :=
  containsList needle.toList hay.toList

/-- Python `str.lower()` (ASCII model, character by character). -/
def pyLower (s : String) : String :=
  String.mk (s.toList.map Char.toLower)

/-- Value of a digit run, most significant first. -/
def digitsToNat (ds : List Char) : ℕ :=
  ds.foldl (fun n c => 10 * n + (c.toNat - 48)) 0

/-- `re.search(r'(\d+)', s)`: the first maximal run of ASCII digits, as an
integer; `none` when the string holds no digit. -/
def firstNumber : List Char → Option ℕ
  | [] => none
  | c :: cs =>
    if c.isDigit then some (digitsToNat (c :: cs.takeWhile Char.isDigit))
    else firstNumber cs

/-- `_parse_delivery_time` (identical in cart_service.py lines 364-378 and
search_service.py lines 362-377): branch on whether the lowered string
contains "min" / "hour" / "day", scale the first number by 1 / 60 / 1440,
and fall back to the sentinel 999. -/
def _parse_delivery_time (delivery_time : String) : ℕ :=
  let low := pyLower delivery_time
  if pyIn "min" low then
    match firstNumber delivery_time.toList with
    | some n => n
    | none => 999
  else if pyIn "hour" low then
    match firstNumber delivery_time.toList with
    | some n => n * 60
    | none => 999
  else if pyIn "day" low then
    match firstNumber delivery_time.toList with
    | some n => n * 1440
    | none => 999
  else 999

/-- A delivery string whose format the parser recognizes: one of the unit
tokens is present and a number was found (so the result is not the
unrecognized-format sentinel path). -/
def deliveryRecognized (delivery_time : String) : Bool :=
  (pyIn "min" (pyLower delivery_time) || pyIn "hour" (pyLower delivery_time)
    || pyIn "day" (pyLower delivery_time))
  && (firstNumber delivery_time.toList).isSome

/-! ## Price extraction: BaseScraper._extract_price (base_scraper.py 172-182)

`re.search(r'[₹$]?\s*([\d,]+(?:\.\d{2})?)', text.replace(',', ''))` followed by
`float(match.group(1))`.  The search runs on the comma-stripped text, so the
captured group never contains a comma. -/

/-- Characters matched by the regex class `\s`. -/
def pyWhite (c : Char) : Bool :=
  c = ' ' || c = '\t' || c = '\n' || c = '\r' || c = '\x0b' || c = '\x0c'

/-- Attempt of the price pattern anchored at the head of `cs`: optional
currency symbol, optional whitespace, a non-empty greedy run of `[\d,]`,
optionally followed by `.` and exactly two digits; capture group 1 as a
number. -/
def matchPriceAt (cs : List Char) : Option ℚ :=
  let afterSym := match cs with
    | c :: rest => if c = '₹' || c = '$' then rest else cs
    | [] => []
  let afterWs := afterSym.dropWhile pyWhite
  let digits := afterWs.takeWhile (fun c => c.isDigit || c = ',')
  if digits.isEmpty then none
  else
    let intPart : ℚ := digitsToNat (digits.filter Char.isDigit)
    match afterWs.drop digits.length with
    | '.' :: d1 :: d2 :: _ =>
      if d1.isDigit && d2.isDigit then
        some (intPart + (digitsToNat [d1, d2] : ℚ) / 100)
      else some intPart
    | _ => some intPart

/-- `re.search`: first position (left to right) where the pattern matches. -/
def searchPrice : List Char → Option ℚ
  | [] => none
  | c :: rest =>
    match matchPriceAt (c :: rest) with
    | some v => some v
    | none => searchPrice rest

/-- `BaseScraper._extract_price`. -/
def _extract_price (text : String) : Option ℚ :=
  searchPrice (text.toList.filter (fun c => c ≠ ','))

/-! ## Cart optimizer: app/services/cart/cart_service.py

Python grouping with a `dict` keeps keys in first-occurrence order and each
group in original order; `group[k]` equals `items.filter (key · = k)`.
`min(..., key=f)` / `max(..., key=f)` return the first extremal element. -/

/-- Keys of a Python dict built by insertion grouping: first-occurrence
order. -/
def dictKeys {α κ : Type} [DecidableEq κ] (f : α → κ) (l : List α) : List κ :=
  l.foldl (fun ks a => if f a ∈ ks then ks else ks ++ [f a]) []

/-- Python `min(l, key=f)`: first element with minimal key (`none` on an empty
list, where Python raises). -/
def pyMinBy {α : Type} (f : α → ℚ) : List α → Option α
  | [] => none
  | a :: l => some (l.foldl (fun b x => if f x < f b then x else b) a)

/-- Python `max(l, key=f)`: first element with maximal key. -/
def pyMaxBy {α : Type} (f : α → ℕ) : List α → Option α
  | [] => none
  | a :: l => some (l.foldl (fun b x => if f x > f b then x else b) a)

/-- Grouping key of the per-product optimizer modes:
`item.product.name.lower()`. -/
def nameKey (it : CartItem) : String :=
  pyLower it.product.name

/-- `CartService._optimize_for_price` (cart_service.py 270-287): group items
by lowercased product name, keep the cheapest (`min` by `total_price`) item of
each group. -/
def _optimize_for_price (items : List CartItem) : List CartItem :=
  (dictKeys nameKey items).filterMap
    (fun k => pyMinBy CartItem.total_price (items.filter (fun it => nameKey it = k)))

/-- `CartService._optimize_for_speed` (cart_service.py 289-306): group items
by lowercased product name, keep the fastest (`min` by parsed delivery
minutes) item of each group. -/
def _optimize_for_speed (items : List CartItem) : List CartItem :=
  (dictKeys nameKey items).filterMap
    (fun k => pyMinBy (fun it => (_parse_delivery_time it.product.delivery.delivery_time : ℚ))
      (items.filter (fun it => nameKey it = k)))

/-- `CartService._optimize_for_minimum_platforms` (cart_service.py 308-326):
group items by `selected_platform`, keep every item of the platform whose
group is largest (`max` over the dict keys by group length). -/
def _optimize_for_minimum_platforms (items : List CartItem) : List CartItem :=
  let platformGroup := fun p => items.filter (fun it => it.selected_platform = p)
  match pyMaxBy (fun p => (platformGroup p).length)
      (dictKeys CartItem.selected_platform items) with
  | some best => platformGroup best
  | none => []

/-! ## Search filtering: SearchService._apply_filters (search_service.py 316-341) -/

/-- Python truthiness of an `Optional[float]`: falsy when `None` or `0.0`. -/
def pyTruthyNum : Option ℚ → Bool
  | none => false
  | some v => v ≠ 0

/-- Python truthiness of an `Optional[str]`: falsy when `None` or `""`. -/
def pyTruthyStr : Option String → Bool
  | none => false
  | some s => s ≠ ""

/-- Price stage: `if request.max_price:` then keep
`p.price.current_price <= request.max_price`. -/
def priceStage (products : List Product) (request : ProductSearchRequest) : List Product :=
  if pyTruthyNum request.max_price then
    products.filter (fun p => p.price.current_price ≤ request.max_price.getD 0)
  else products

/-- Rating stage: `if request.min_rating:` then keep
`p.rating and p.rating.rating >= request.min_rating`. -/
def ratingStage (products : List Product) (request : ProductSearchRequest) : List Product :=
  if pyTruthyNum request.min_rating then
    products.filter (fun p =>
      match p.rating with
      | some r => request.min_rating.getD 0 ≤ r.rating
      | none => false)
  else products

/-- Category stage: `if request.category:` then keep
`p.category and request.category.lower() in p.category.lower()`. -/
def categoryStage (products : List Product) (request : ProductSearchRequest) : List Product :=
  if pyTruthyStr request.category then
    products.filter (fun p =>
      match p.category with
      | some c => pyIn (pyLower (request.category.getD "")) (pyLower c)
      | none => false)
  else products

/-- `SearchService._apply_filters`: price ceiling, then rating floor, then
category substring, each conditional on the request field being truthy. -/
def _apply_filters (products : List Product) (request : ProductSearchRequest) : List Product :=
  categoryStage (ratingStage (priceStage products request) request) request

/-! ## Scraper boundary: BaseScraper.search_products (base_scraper.py 77-102)

The abstract per-platform pieces (`get_search_url`, `_fetch_page`,
`parse_search_results`) are modelled as explicit behaviours; any of them may
raise (`Except.error`) and `_fetch_page` may also report failure as `None`. -/

/-- A concrete scraper's behaviour for one request: its platform identity and
the outcomes of URL building, page fetching and result parsing. -/
structure ScraperBehavior where
  platform : Platform
  platform_type : PlatformType
  get_search_url : String → Except String String
  fetch_page : String → Except String (Option String)
  parse_search_results : String → String → Except String (List Product)

/-- The body of the `try:` block of `BaseScraper.search_products`: build the
URL, fetch (`if not html: return []`), parse, truncate to `limit`, then tag
every product with this scraper's platform and platform type. -/
def search_pipeline (s : ScraperBehavior) (query : String) (limit : ℕ) :
    Except String (List Product) := do
  let url ← s.get_search_url query
  let html? ← s.fetch_page url
  match html? with
  | none => pure []
  | some html =>
    if html = "" then pure []
    else do
      let products ← s.parse_search_results html query
      pure ((products.take limit).map
        (fun p => { p with platform := s.platform, platform_type := s.platform_type }))

/-- `BaseScraper.search_products`: the pipeline wrapped in
`try: ... except Exception: return []`. -/
def search_products (s : ScraperBehavior) (query : String) (limit : ℕ) : List Product :=
  match search_pipeline s query limit with
  | .ok products => products
  | .error _ => []

/-! ## Placeholder synthesis: SearchService._create_basic_mock_products
(search_service.py 240-308)

The source passes `total_ratings=...` to `ProductRating`, never supplying the
required `total_reviews` field, so every `Product(...)` construction raises a
pydantic `ValidationError` (and the module in fact also lacks the imports of
`PlatformType`/`ProductPrice`/`ProductRating`/`ProductImage`/`DeliveryInfo`,
so at runtime a `NameError` fires first — either way the call raises). -/

/-- Python `str.title()`: first character of every alphabetic run uppercased,
the rest lowercased (ASCII model). -/
def pyTitleChars : Bool → List Char → List Char
  | _, [] => []
  | prevAlpha, c :: cs =>
    if c.isAlpha then
      (if prevAlpha then c.toLower else c.toUpper) :: pyTitleChars true cs
    else c :: pyTitleChars false cs

/-- Python `str.title()`. -/
def pyTitle (s : String) : String :=
  ⟨pyTitleChars false s.toList⟩

/-- The query-keyed name templates of `_create_basic_mock_products`. -/
def basicMockNames (query : String) : List String :=
  let ql := pyLower query
  let t := pyTitle query
  if pyIn "cheese" ql || pyIn "dairy" ql || pyIn "milk" ql then
    [s!"Amul {t} - 200g", s!"Britannia {t} - 250g", s!"Mother Dairy {t} - 500g"]
  else if pyIn "phone" ql || pyIn "mobile" ql || pyIn "smartphone" ql then
    ["iPhone 15 - 128GB", "Samsung Galaxy S24 - 256GB", "OnePlus 12 - 512GB"]
  else if pyIn "laptop" ql || pyIn "computer" ql then
    ["MacBook Air M2 - 13 inch", "Dell Inspiron 15 - Intel i5", "HP Pavilion 14 - AMD Ryzen 5"]
  else
    [s!"{t} - Premium Quality", s!"{t} - Best Seller", s!"{t} - Value Pack"]

/-- One `Product(...)` construction inside the placeholder loop.  The
`ProductRating(rating=4.0 + (i+j)*0.1, total_ratings=100 + (i+j)*50)` call
supplies no `total_reviews` (pydantic ignores the unknown `total_ratings`
keyword), so validation fails before a product can be built. -/
def mkBasicMockProduct (name : String) (platform : Platform) (i j : ℕ) (price : ℚ) :
    Except String Product := do
  let pv := platform.value
  let nameplus := String.mk (name.toList.map (fun c => if c = ' ' then '+' else c))
  let rating ← ProductRating.model_validate (some (4 + (i + j : ℚ) / 10)) none
  pure {
    name := name
    platform := platform
    platform_type := if platform ≠ Platform.blinkit then PlatformType.ecommerce
      else PlatformType.quick_commerce
    platform_product_id := s!"mock_{pv}_{i}_{j}"
    platform_url := s!"https://{pv}.com/product/{i}_{j}"
    price := { current_price := price, original_price := some (price * 12 / 10),
               currency := "INR" }
    rating := some rating
    images := [{ url := s!"https://via.placeholder.com/300x300?text={nameplus}" }]
    delivery := { delivery_time := if platform ≠ Platform.blinkit then "2-3 days"
      else "10-30 mins" }
  }

/-- Inner `for j, name in enumerate(product_names)` loop with its
`if len(products) >= cap: break`. -/
def basicMockInner (platform : Platform) (i : ℕ) (base_prices : List ℚ) (cap : ℕ) :
    List (ℕ × String) → List Product → Except String (List Product)
  | [], acc => .ok acc
  | (j, name) :: rest, acc =>
    if acc.length ≥ cap then .ok acc
    else do
      let price := base_prices.getD ((i + j) % base_prices.length) 0
      let product ← mkBasicMockProduct name platform i j price
      basicMockInner platform i base_prices cap rest (acc ++ [product])

/-- Outer `for i, platform in enumerate(platforms_to_use)` loop. -/
def basicMockOuter (names : List String) (base_prices : List ℚ) (cap : ℕ) :
    List (ℕ × Platform) → List Product → Except String (List Product)
  | [], acc => .ok acc
  | (i, platform) :: rest, acc => do
    let acc' ← basicMockInner platform i base_prices cap names.enum acc
    basicMockOuter names base_prices cap rest acc'

/-- `SearchService._create_basic_mock_products(query, platforms)`;
`isVercel` is `settings.IS_VERCEL`. -/
def _create_basic_mock_products (query : String) (platforms : List Platform)
    (isVercel : Bool) : Except String (List Product) :=
  let product_names := basicMockNames query
  let base_prices : List ℚ := [299, 499, 799, 1299, 1999, 2999]
  let platforms_to_use := platforms.take (if isVercel then 2 else 3)
  let cap := if isVercel then 4 else 6
  basicMockOuter product_names base_prices cap platforms_to_use.enum []

/-! ## Concrete demonstration values (used by witnesses and counterexamples) -/

/-- A concrete product: "Phone X" at 500 on Flipkart, no rating. -/
def demoPhone : Product :=
  { name := "Phone X"
    platform := .flipkart
    platform_type := .ecommerce
    platform_product_id := "p1"
    platform_url := "https://flipkart.com/p1"
    price := { current_price := 500 }
    delivery := { delivery_time := "2-3 days" } }

/-- A cart item holding `demoPhone` on Flipkart. -/
def demoPhoneItem (id : String) (qty : ℕ) : CartItem :=
  { id := some id, product := demoPhone, quantity := qty, selected_platform := .flipkart }

/-- A cart holding two units of `demoPhone`, obtained by one `add_item` on an
empty cart. -/
def demoCartA : Cart :=
  Cart.add_item {} (demoPhoneItem "a" 2) 1

/-- Same product name on Amazon at 300. -/
def demoPhoneAmazon : Product :=
  { demoPhone with
    platform := .amazon
    platform_product_id := "p2"
    platform_url := "https://amazon.com/p2"
    price := { current_price := 300 } }

/-- Cart item: "Phone X" at 500 on Flipkart. -/
def demoItem500 : CartItem :=
  { id := some "i500", product := demoPhone, quantity := 1, selected_platform := .flipkart }

/-- Cart item: "Phone X" at 300 on Amazon. -/
def demoItem300 : CartItem :=
  { id := some "i300", product := demoPhoneAmazon, quantity := 1, selected_platform := .amazon }

/-- An Amazon cart item named `n`. -/
def demoAmazonItem (n : String) : CartItem :=
  { id := some n
    product := { demoPhone with name := n, platform := .amazon, platform_product_id := n }
    quantity := 1
    selected_platform := .amazon }

/-- A Flipkart cart item named "b". -/
def demoFlipkartItem : CartItem :=
  { id := some "b", product := { demoPhone with name := "b" }, quantity := 1,
    selected_platform := .flipkart }

/-- Three Amazon items and one Flipkart item. -/
def demoMixedItems : List CartItem :=
  [demoAmazonItem "x", demoAmazonItem "y", demoFlipkartItem, demoAmazonItem "z"]

/-- A cart with a discounted item (600 → 500, quantity 2) and a plain item. -/
def demoCart : Cart :=
  { items :=
      [{ id := some "a"
         product := { demoPhone with price := { current_price := 500, original_price := some 600 } }
         quantity := 2
         selected_platform := .flipkart },
       demoPhoneItem "b" 1] }

/-- A product carrying a 5-star rating. -/
def demoRated : Product :=
  { demoPhone with rating := some { rating := 5, total_reviews := 100 } }

/-- A search request whose rating floor is 0.0 — a legal value in [0, 5], but
falsy in Python. -/
def demoReqFloor0 : ProductSearchRequest :=
  { query := "q", min_rating := some 0 }

/-- A search request with rating floor 4. -/
def demoReqFloor4 : ProductSearchRequest :=
  { query := "q", min_rating := some 4 }

/-- A scraper whose URL building raises. -/
def demoScraperErr : ScraperBehavior :=
  { platform := .flipkart
    platform_type := .ecommerce
    get_search_url := fun _ => .error "boom"
    fetch_page := fun _ => .ok none
    parse_search_results := fun _ _ => .ok [] }

/-- A scraper that succeeds and parses one product which carries the wrong
platform tag before the boundary retags it. -/
def demoScraperOk : ScraperBehavior :=
  { platform := .flipkart
    platform_type := .ecommerce
    get_search_url := fun _ => .ok "https://flipkart.com/search?q=laptop"
    fetch_page := fun _ => .ok (some "<html>big enough page</html>")
    parse_search_results := fun _ _ =>
      .ok [{ demoPhone with platform := .amazon, platform_type := .quick_commerce }] }

/-- The product `demoScraperOk` returns after the boundary retags it. -/
def demoTagged : Product :=
  { demoPhone with platform := .flipkart, platform_type := .ecommerce }

/-! ## Helper lemmas -/

/-- `addToExisting` misses exactly when no existing item shares the merge
key. -/
theorem addToExisting_eq_none {items : List CartItem} {it : CartItem} :
    addToExisting items it = none ↔ ∀ c ∈ items, cartKey c ≠ cartKey it := by
  induction items with
  | nil => simp [addToExisting]
  | cons c rest ih =>
    by_cases h : cartKey c = cartKey it
    · simp [addToExisting, h]
    · simp [addToExisting, h, Option.map_eq_none', ih]

/-- A successful merge keeps the key multiset, the length, and adds the new
quantity to the total. -/
theorem addToExisting_eq_some {items res : List CartItem} {it : CartItem}
    (h : addToExisting items it = some res) :
    res.map cartKey = items.map cartKey ∧ res.length = items.length ∧
      (res.map CartItem.quantity).sum = (items.map CartItem.quantity).sum + it.quantity := by
  induction items generalizing res with
  | nil => simp [addToExisting] at h
  | cons c rest ih =>
    by_cases hk : cartKey c = cartKey it
    · have h' : ({ c with quantity := c.quantity + it.quantity } :: rest) = res := by
        simpa [addToExisting, hk] using h
      subst h'
      refine ⟨by simp [cartKey], by simp, ?_⟩
      simp; omega
    · simp only [addToExisting, if_neg hk, Option.map_eq_some'] at h
      obtain ⟨res', h1, rfl⟩ := h
      obtain ⟨e1, e2, e3⟩ := ih h1
      refine ⟨by simp [e1], by simp [e2], ?_⟩
      simp [e3]; omega

/-- `Cart.add_item` preserves the at-most-one-item-per-key invariant. -/
theorem add_item_nodup {cart : Cart} {item : CartItem} {now : ℕ}
    (h : (cart.items.map cartKey).Nodup) :
    (((cart.add_item item now).items.map cartKey).Nodup) := by
  unfold Cart.add_item
  cases heq : addToExisting cart.items item with
  | some res =>
    simp only []
    rw [(addToExisting_eq_some heq).1]
    exact h
  | none =>
    simp only [List.map_append]
    have hnotin : cartKey item ∉ cart.items.map cartKey := by
      simp only [List.mem_map, not_exists]
      rintro c ⟨hc, hck⟩
      exact addToExisting_eq_none.mp heq c hc hck
    exact ((List.perm_append_singleton _ _).nodup_iff).mpr (List.nodup_cons.mpr ⟨hnotin, h⟩)

/-- Python `min(key=f)` folding step specification. -/
theorem foldlMin_spec {α : Type} (f : α → ℚ) :
    ∀ (t : List α) (b : α),
      ((t.foldl (fun b x => if f x < f b then x else b) b) = b
        ∨ (t.foldl (fun b x => if f x < f b then x else b) b) ∈ t)
      ∧ f (t.foldl (fun b x => if f x < f b then x else b) b) ≤ f b
      ∧ ∀ x ∈ t, f (t.foldl (fun b x => if f x < f b then x else b) b) ≤ f x := by
  intro t
  induction t with
  | nil => intro b; simp
  | cons x t ih =>
    intro b
    simp only [List.foldl_cons]
    obtain ⟨hmem, hb, hall⟩ := ih (if f x < f b then x else b)
    have hstep : (if f x < f b then x else b) = x ∨ (if f x < f b then x else b) = b := by
      by_cases hx : f x < f b <;> simp [hx]
    have hstepb : f (if f x < f b then x else b) ≤ f b := by
      by_cases hx : f x < f b <;> simp [hx]
      exact le_of_lt hx
    have hstepx : f (if f x < f b then x else b) ≤ f x := by
      by_cases hx : f x < f b <;> simp [hx]
      exact le_of_not_lt hx
    refine ⟨?_, ?_, ?_⟩
    · rcases hmem with hmem | hmem
      · rcases hstep with hs | hs <;> rw [hmem, hs]
        · exact Or.inr (by simp)
        · exact Or.inl rfl
      · exact Or.inr (by simp [hmem])
    · exact le_trans hb hstepb
    · intro y hy
      rcases List.mem_cons.mp hy with rfl | hy
      · exact le_trans hb hstepx
      · exact hall y hy

/-- Python `min(l, key=f)` on a non-empty list returns a member with minimal
key. -/
theorem pyMinBy_spec {α : Type} (f : α → ℚ) (l : List α) (h : l ≠ []) :
    ∃ a, pyMinBy f l = some a ∧ a ∈ l ∧ ∀ x ∈ l, f a ≤ f x := by
  match l with
  | [] => exact absurd rfl h
  | b :: t =>
    obtain ⟨hmem, hb, hall⟩ := foldlMin_spec f t b
    refine ⟨_, rfl, ?_, ?_⟩
    · rcases hmem with hm | hm
      · rw [hm]; simp
      · simp [hm]
    · intro x hx
      rcases List.mem_cons.mp hx with rfl | hx
      · exact hb
      · exact hall x hx

/-- Python `max(key=f)` folding step specification. -/
theorem foldlMax_spec {α : Type} (f : α → ℕ) :
    ∀ (t : List α) (b : α),
      ((t.foldl (fun b x => if f x > f b then x else b) b) = b
        ∨ (t.foldl (fun b x => if f x > f b then x else b) b) ∈ t)
      ∧ f b ≤ f (t.foldl (fun b x => if f x > f b then x else b) b)
      ∧ ∀ x ∈ t, f x ≤ f (t.foldl (fun b x => if f x > f b then x else b) b) := by
  intro t
  induction t with
  | nil => intro b; simp
  | cons x t ih =>
    intro b
    simp only [List.foldl_cons]
    obtain ⟨hmem, hb, hall⟩ := ih (if f x > f b then x else b)
    have hstep : (if f x > f b then x else b) = x ∨ (if f x > f b then x else b) = b := by
      by_cases hx : f x > f b <;> simp [hx]
    have hstepb : f b ≤ f (if f x > f b then x else b) := by
      by_cases hx : f x > f b <;> simp [hx]
      exact le_of_lt hx
    have hstepx : f x ≤ f (if f x > f b then x else b) := by
      by_cases hx : f x > f b <;> simp [hx]
      exact le_of_not_lt hx
    refine ⟨?_, ?_, ?_⟩
    · rcases hmem with hmem | hmem
      · rcases hstep with hs | hs <;> rw [hmem, hs]
        · exact Or.inr (by simp)
        · exact Or.inl rfl
      · exact Or.inr (by simp [hmem])
    · exact le_trans hstepb hb
    · intro y hy
      rcases List.mem_cons.mp hy with rfl | hy
      · exact le_trans hstepx hb
      · exact hall y hy

/-- Python `max(l, key=f)` on a non-empty list returns a member with maximal
key. -/
theorem pyMaxBy_spec {α : Type} (f : α → ℕ) (l : List α) (h : l ≠ []) :
    ∃ a, pyMaxBy f l = some a ∧ a ∈ l ∧ ∀ x ∈ l, f x ≤ f a := by
  match l with
  | [] => exact absurd rfl h
  | b :: t =>
    obtain ⟨hmem, hb, hall⟩ := foldlMax_spec f t b
    refine ⟨_, rfl, ?_, ?_⟩
    · rcases hmem with hm | hm
      · rw [hm]; simp
      · simp [hm]
    · intro x hx
      rcases List.mem_cons.mp hx with rfl | hx
      · exact hb
      · exact hall x hx

/-- Accumulator characterization of `dictKeys` membership. -/
theorem dictKeys_aux_mem {α κ : Type} [DecidableEq κ] (f : α → κ) :
    ∀ (l : List α) (ks : List κ) (k : κ),
      (k ∈ l.foldl (fun ks a => if f a ∈ ks then ks else ks ++ [f a]) ks
        ↔ (k ∈ ks ∨ k ∈ l.map f)) := by
  intro l
  induction l with
  | nil => simp
  | cons a l ih =>
    intro ks k
    simp only [List.foldl_cons, List.map_cons, List.mem_cons]
    rw [ih]
    by_cases h : f a ∈ ks
    · simp only [if_pos h]
      constructor
      · rintro (hk | hk)
        · exact Or.inl hk
        · exact Or.inr (Or.inr hk)
      · rintro (hk | rfl | hk)
        · exact Or.inl hk
        · exact Or.inl h
        · exact Or.inr hk
    · simp only [if_neg h, List.mem_append, List.mem_singleton]
      tauto

/-- A key appears in `dictKeys f l` exactly when some element maps to it. -/
theorem dictKeys_mem {α κ : Type} [DecidableEq κ] {f : α → κ} {l : List α} {k : κ} :
    k ∈ dictKeys f l ↔ k ∈ l.map f := by
  simpa [dictKeys] using dictKeys_aux_mem f l [] k

/-- Accumulator version of `dictKeys` distinctness. -/
theorem dictKeys_aux_nodup {α κ : Type} [DecidableEq κ] (f : α → κ) :
    ∀ (l : List α) (ks : List κ), ks.Nodup →
      (l.foldl (fun ks a => if f a ∈ ks then ks else ks ++ [f a]) ks).Nodup := by
  intro l
  induction l with
  | nil => intro ks h; simpa
  | cons a l ih =>
    intro ks h
    simp only [List.foldl_cons]
    by_cases hm : f a ∈ ks
    · simpa [hm] using ih ks h
    · refine ih _ ?_
      simp only [if_neg hm]
      exact ((List.perm_append_singleton _ _).nodup_iff).mpr (List.nodup_cons.mpr ⟨hm, h⟩)

/-- Dict keys are distinct. -/
theorem dictKeys_nodup {α κ : Type} [DecidableEq κ] (f : α → κ) (l : List α) :
    (dictKeys f l).Nodup :=
  dictKeys_aux_nodup f l [] List.nodup_nil

/-- When a selector succeeds on every key and returns an element carrying that
key, `filterMap` maps the keys back to the key list. -/
theorem filterMap_key_map {α κ : Type} (key : α → κ) (g : κ → Option α) :
    ∀ (ks : List κ), (∀ k ∈ ks, ∃ a, g k = some a ∧ key a = k) →
      (ks.filterMap g).map key = ks := by
  intro ks
  induction ks with
  | nil => simp
  | cons k ks ih =>
    intro h
    obtain ⟨a, ha, hk⟩ := h k (by simp)
    rw [List.filterMap_cons, ha]
    simp only [List.map_cons, hk]
    rw [ih (fun k' hk' => h k' (by simp [hk']))]

/-! ## Claim theorems -/

/-- Claim C1 (code_bug evaluation): the placeholder generator
`_create_basic_mock_products` does not return schema-valid products without
raising — at the failing input (query "cheese", platforms `[flipkart]`,
`IS_VERCEL = False`) the very first `Product(...)` construction raises,
because `ProductRating` is called with `total_ratings=` while its required
`total_reviews` field is never supplied (the enclosing module also lacks the
imports of `PlatformType`/`ProductPrice`/`ProductRating`/`ProductImage`/
`DeliveryInfo`, so a `NameError` fires even earlier).  The search fallback
path therefore raises instead of synthesizing placeholder products. -/
theorem basic_mock_products_raise :
    _create_basic_mock_products "cheese" [Platform.flipkart] false
      = Except.error "total_reviews: Field required" := by
  rfl

/-- Claim C2 (counterexample): the list `["sometime", "3 days"]` is sorted
ascending by parsed delivery minutes (999 ≤ 4320), yet the sentinel entry
"sometime" (parsed to 999) comes first, before the recognized entry
"3 days" (parsed to 4320) — so sentinel entries do not always sort after
every recognized entry. -/
theorem delivery_sentinel_not_last_counterexample :
    List.Sorted (fun a b => _parse_delivery_time a ≤ _parse_delivery_time b)
      ["sometime", "3 days"]
    ∧ _parse_delivery_time "sometime" = 999
    ∧ deliveryRecognized "3 days" = true
    ∧ _parse_delivery_time "3 days" = 4320
    ∧ (["sometime", "3 days"] : List String).head? = some "sometime" := by
  refine ⟨by decide, by decide, by decide, by decide, rfl⟩

/-- Claim C2 (amended): `_parse_delivery_time` maps "30 mins" to 30, "2 hours"
to 120, "3 days" to 4320 and the unrecognized "sometime" to the sentinel 999;
and in every list sorted ascending by parsed value, an entry parsed to the
sentinel comes after every entry parsed to fewer than 999 minutes (recognized
entries parsing to 999 minutes or more — any whole-day time — come after the
sentinel entries instead). -/
theorem delivery_parse_amended :
    _parse_delivery_time "30 mins" = 30
    ∧ _parse_delivery_time "2 hours" = 120
    ∧ _parse_delivery_time "3 days" = 4320
    ∧ _parse_delivery_time "sometime" = 999
    ∧ ∀ (l : List String),
        l.Sorted (fun a b => _parse_delivery_time a ≤ _parse_delivery_time b) →
        ∀ (i j : Fin l.length), _parse_delivery_time (l.get i) = 999 →
          _parse_delivery_time (l.get j) < 999 → (j : ℕ) < (i : ℕ) := by
  refine ⟨by decide, by decide, by decide, by decide, ?_⟩
  intro l hs i j hi hj
  by_contra hcon
  push_neg at hcon
  rcases eq_or_lt_of_le hcon with heq | hlt
  · have : i = j := Fin.ext heq
    subst this
    rw [hi] at hj
    exact absurd hj (by omega)
  · have hrel := List.pairwise_iff_get.mp hs i j hlt
    rw [hi] at hrel
    exact absurd (lt_of_le_of_lt hrel hj) (by omega)

/-- Claim C2 (amended) witness: instantiation at the sorted list
`["30 mins", "sometime"]` with the sentinel at index 1 and the 30-minute
entry at index 0. -/
theorem delivery_parse_amended_witness :
    _parse_delivery_time "30 mins" = 30 ∧ (0 : ℕ) < 1 :=
  ⟨delivery_parse_amended.1,
    delivery_parse_amended.2.2.2.2 ["30 mins", "sometime"] (by decide)
      ⟨1, by decide⟩ ⟨0, by decide⟩ (by decide) (by decide)⟩

/-- Claim C6: for every cart, `total_price` is the sum of
`current_price × quantity` over the items, `total_savings` equals
`total_original_price - total_price`, and the savings are nonnegative
whenever every item's present `original_price` is at least its
`current_price`. -/
theorem cart_totals_invariants (cart : Cart) :
    cart.total_price
      = (cart.items.map (fun it => it.product.price.current_price * (it.quantity : ℚ))).sum
    ∧ cart.total_savings = cart.total_original_price - cart.total_price
    ∧ ((∀ it ∈ cart.items, ∀ op, it.product.price.original_price = some op →
          it.product.price.current_price ≤ op) → 0 ≤ cart.total_savings) := by
  refine ⟨rfl, rfl, ?_⟩
  intro h
  have hle : cart.total_price ≤ cart.total_original_price := by
    unfold Cart.total_price Cart.total_original_price
    refine List.sum_le_sum ?_
    intro it hit
    rcases hop : it.product.price.original_price with _ | op
    · simp [CartItem.total_original_price, hop]
    · by_cases h0 : op = 0
      · simp [CartItem.total_original_price, hop, h0]
      · have hcur := h it hit op hop
        simp only [CartItem.total_original_price, hop, if_neg h0]
        by_cases hq : (op * (it.quantity : ℚ)) = 0
        · simp [hq]
        · simp only [if_neg hq]
          calc CartItem.total_price it
              = it.product.price.current_price * it.quantity := rfl
            _ ≤ op * it.quantity := by
                exact mul_le_mul_of_nonneg_right hcur (by positivity)
  unfold Cart.total_savings
  linarith

/-- Claim C6 witness: the discounted demo cart has nonnegative savings. -/
theorem cart_totals_invariants_witness : 0 ≤ demoCart.total_savings :=
  (cart_totals_invariants demoCart).2.2 (by
    intro it hit op hop
    simp only [demoCart, demoPhoneItem, demoPhone, List.mem_cons, List.not_mem_nil,
      or_false] at hit
    rcases hit with rfl | rfl
    · simp only [Option.some.injEq] at hop
      rw [← hop]
      norm_num
    · simp at hop)

/-- Claim C8: `_extract_price` recovers exactly 12345.00 from the formatted
string "₹12,345.00", and the bare currency symbol "₹" yields no price. -/
theorem extract_price_roundtrip :
    _extract_price "₹12,345.00" = some (12345 : ℚ)
    ∧ _extract_price "₹" = none := by
  constructor
  · have h : _extract_price "₹12,345.00" = some ((12345 : ℕ) + ((0 : ℕ) : ℚ) / 100) := by rfl
    rw [h]
    norm_num
  · rfl

/-- Claim C10: when no item of the cart carries the requested id,
`Cart.remove_item` returns `False` and leaves the cart completely unchanged —
same item list and no `updated_at` re-stamp. -/
theorem remove_item_missing_frame (cart : Cart) (item_id : String) (now : ℕ)
    (h : ∀ it ∈ cart.items, it.id ≠ some item_id) :
    cart.remove_item item_id now = (false, cart) := by
  have hfilter : cart.items.filter (fun it => it.id ≠ some item_id) = cart.items :=
    List.filter_eq_self.mpr (fun a ha => by simpa using h a ha)
  simp only [Cart.remove_item]
  rw [hfilter, if_neg (lt_irrefl _)]

/-- Claim C10 witness: removing an absent id from the demo cart returns
`False` with the cart unchanged. -/
theorem remove_item_missing_frame_witness :
    demoCart.remove_item "zzz" 7 = (false, demoCart) :=
  remove_item_missing_frame demoCart "zzz" 7 (by decide)

/-- Reduction of `Except` bind on a success. -/
theorem except_bind_ok {ε α β : Type} (a : α) (f : α → Except ε β) :
    (Except.ok a >>= f : Except ε β) = f a := rfl

/-- Reduction of `Except` bind on an error. -/
theorem except_bind_error {ε α β : Type} (e : ε) (f : α → Except ε β) :
    (Except.error e >>= f : Except ε β) = Except.error e := rfl

/-- Claim C3: starting from any cart satisfying the at-most-one-item-per-
(product identity, selected platform) invariant, any sequence of `add_item`
calls preserves the invariant; adding an item whose key matches an existing
item keeps the item count and adds its quantity to the total (merge, not
append); and concretely, adding the same product+platform with quantities 2
then 3 to an empty cart yields exactly one item with quantity 5. -/
theorem cart_add_merge_invariant :
    (∀ (cart : Cart) (adds : List (CartItem × ℕ)),
        (cart.items.map cartKey).Nodup →
        (((adds.foldl (fun c p => c.add_item p.1 p.2) cart).items.map cartKey).Nodup))
    ∧ (∀ (cart : Cart) (item : CartItem) (now : ℕ),
        (∃ c ∈ cart.items, cartKey c = cartKey item) →
        ((cart.add_item item now).items.length = cart.items.length
          ∧ ((cart.add_item item now).items.map CartItem.quantity).sum
              = (cart.items.map CartItem.quantity).sum + item.quantity))
    ∧ ((({} : Cart).add_item (demoPhoneItem "a" 2) 1).add_item
          (demoPhoneItem "b" 3) 2).items.map (fun it => (it.id, it.quantity))
        = [(some "a", 5)] := by
  refine ⟨?_, ?_, by decide⟩
  · intro cart adds
    induction adds generalizing cart with
    | nil => exact fun h => h
    | cons p rest ih => exact fun h => ih _ (add_item_nodup h)
  · rintro cart item now ⟨c, hc, hkey⟩
    cases heq : addToExisting cart.items item with
    | none =>
      exact absurd hkey (addToExisting_eq_none.mp heq c hc)
    | some res =>
      obtain ⟨_, e2, e3⟩ := addToExisting_eq_some heq
      constructor
      · simp [Cart.add_item, heq, e2]
      · simp [Cart.add_item, heq, e3]

/-- Claim C3 witness: the invariant holds after adding to the empty cart, and
adding a matching item to the one-item demo cart keeps its length. -/
theorem cart_add_merge_invariant_witness :
    ((([((demoPhoneItem "a" 2 : CartItem), (1 : ℕ))].foldl
        (fun c p => c.add_item p.1 p.2) ({} : Cart)).items.map cartKey).Nodup)
    ∧ (demoCartA.add_item (demoPhoneItem "b" 3) 2).items.length
        = demoCartA.items.length :=
  ⟨cart_add_merge_invariant.1 {} [(demoPhoneItem "a" 2, 1)] (by decide),
    (cart_add_merge_invariant.2.1 demoCartA (demoPhoneItem "b" 3) 2
      ⟨demoPhoneItem "a" 2, by decide, by decide⟩).1⟩

/-- Claim C4: in `best_price` mode, the optimizer keeps exactly one item per
distinct case-insensitive product name (the kept names are exactly the
distinct names, with no repetition), each kept item comes from the input and
has minimal `total_price` among the input items with the same name; and
given "Phone X" at 500 and at 300 on different platforms, only the 300 item
is kept. -/
theorem optimize_best_price_keeps_cheapest :
    (∀ (items : List CartItem), items ≠ [] →
      ((_optimize_for_price items).map nameKey = dictKeys nameKey items
        ∧ ((_optimize_for_price items).map nameKey).Nodup
        ∧ ∀ it ∈ _optimize_for_price items, it ∈ items ∧
            ∀ other ∈ items, nameKey other = nameKey it →
              it.total_price ≤ other.total_price))
    ∧ _optimize_for_price [demoItem500, demoItem300] = [demoItem300] := by
  constructor
  · intro items _hne
    have hgroup : ∀ k ∈ dictKeys nameKey items,
        items.filter (fun it => nameKey it = k) ≠ [] := by
      intro k hk
      obtain ⟨it, hit, hkey⟩ := List.mem_map.mp (dictKeys_mem.mp hk)
      exact List.ne_nil_of_mem (List.mem_filter.mpr ⟨hit, by simp [hkey]⟩)
    have hmap : (_optimize_for_price items).map nameKey = dictKeys nameKey items := by
      unfold _optimize_for_price
      apply filterMap_key_map
      intro k hk
      obtain ⟨a, hsome, hmem, _hmin⟩ :=
        pyMinBy_spec CartItem.total_price _ (hgroup k hk)
      exact ⟨a, hsome, by simpa using (List.mem_filter.mp hmem).2⟩
    refine ⟨hmap, by rw [hmap]; exact dictKeys_nodup _ _, ?_⟩
    intro it hit
    obtain ⟨k, hk, hgk⟩ := List.mem_filterMap.mp hit
    obtain ⟨a, hsome, hmem, hmin⟩ :=
      pyMinBy_spec CartItem.total_price _ (hgroup k hk)
    rw [hsome] at hgk
    have hai : it = a := by simpa using hgk.symm
    subst hai
    have hfi := List.mem_filter.mp hmem
    refine ⟨hfi.1, ?_⟩
    intro other hother hname
    have hkeyit : nameKey it = k := by simpa using hfi.2
    exact hmin other (List.mem_filter.mpr ⟨hother, by simp [hname, hkeyit]⟩)
  · have h1 : dictKeys nameKey [demoItem500, demoItem300] = [pyLower "Phone X"] := by
      decide
    have h2 : [demoItem500, demoItem300].filter
        (fun it => nameKey it = pyLower "Phone X") = [demoItem500, demoItem300] := by
      decide
    have h3 : pyMinBy CartItem.total_price [demoItem500, demoItem300]
        = some demoItem300 := by
      simp only [pyMinBy, List.foldl]
      have hlt : CartItem.total_price demoItem300 < CartItem.total_price demoItem500 := by
        simp [CartItem.total_price, demoItem300, demoItem500, demoPhone, demoPhoneAmazon]
        norm_num
      rw [if_pos hlt]
    unfold _optimize_for_price
    rw [h1, List.filterMap_cons, h2, h3]
    simp

/-- Claim C4 witness: applied to the two-item demo list, the kept names are
exactly the distinct lowercased names of the input. -/
theorem optimize_best_price_keeps_cheapest_witness :
    (_optimize_for_price [demoItem500, demoItem300]).map nameKey
      = dictKeys nameKey [demoItem500, demoItem300] :=
  (optimize_best_price_keeps_cheapest.1 [demoItem500, demoItem300] (by decide)).1

/-- Claim C5: in `minimum_platforms` mode, for every non-empty item list the
result is exactly the items of one platform that holds the maximum number of
items (selected deterministically), with no item of any other platform; and
with three Amazon items and one Flipkart item, exactly the three Amazon items
are kept. -/
theorem optimize_minimum_platforms_keeps_biggest :
    (∀ (items : List CartItem), items ≠ [] →
      ∃ best, best ∈ items.map CartItem.selected_platform ∧
        _optimize_for_minimum_platforms items
          = items.filter (fun it => it.selected_platform = best) ∧
        ∀ p : Platform,
          (items.filter (fun it => it.selected_platform = p)).length
            ≤ (items.filter (fun it => it.selected_platform = best)).length)
    ∧ _optimize_for_minimum_platforms demoMixedItems
        = [demoAmazonItem "x", demoAmazonItem "y", demoAmazonItem "z"] := by
  refine ⟨?_, by decide⟩
  intro items hne
  have hkeysne : dictKeys CartItem.selected_platform items ≠ [] := by
    obtain ⟨it, hit⟩ := List.exists_mem_of_ne_nil items hne
    exact List.ne_nil_of_mem (dictKeys_mem.mpr (List.mem_map_of_mem _ hit))
  obtain ⟨best, hsome, hmem, hmax⟩ :=
    pyMaxBy_spec (fun p => (items.filter (fun it => it.selected_platform = p)).length)
      _ hkeysne
  refine ⟨best, dictKeys_mem.mp hmem, ?_, ?_⟩
  · simp only [_optimize_for_minimum_platforms]
    rw [hsome]
  · intro p
    by_cases hp : p ∈ items.map CartItem.selected_platform
    · exact hmax p (dictKeys_mem.mpr hp)
    · have hnil : items.filter (fun it => it.selected_platform = p) = [] := by
        rw [List.filter_eq_nil_iff]
        intro it hit
        simp only [decide_eq_true_eq]
        exact fun hcontra => hp (List.mem_map.mpr ⟨it, hit, hcontra⟩)
      simp [hnil]

/-- Claim C5 witness: instantiation at the three-Amazon-one-Flipkart demo
list. -/
theorem optimize_minimum_platforms_keeps_biggest_witness :
    ∃ best, best ∈ demoMixedItems.map CartItem.selected_platform ∧
      _optimize_for_minimum_platforms demoMixedItems
        = demoMixedItems.filter (fun it => it.selected_platform = best) ∧
      ∀ p : Platform,
        (demoMixedItems.filter (fun it => it.selected_platform = p)).length
          ≤ (demoMixedItems.filter (fun it => it.selected_platform = best)).length :=
  optimize_minimum_platforms_keeps_biggest.1 demoMixedItems (by decide)

/-- Claim C7 (counterexample): 0.0 is a rating floor in [0, 5], yet with
`min_rating = 0.0` the rating filter is skipped entirely (Python truthiness),
so a product without any rating survives `_apply_filters` — contradicting
"products without a rating are excluded whenever a floor is set". -/
theorem rating_floor_counterexample :
    demoReqFloor0.min_rating = some (0 : ℚ)
    ∧ (0 : ℚ) ≤ 0 ∧ (0 : ℚ) ≤ 5
    ∧ demoPhone.rating = none
    ∧ _apply_filters [demoPhone] demoReqFloor0 = [demoPhone] :=
  ⟨rfl, le_refl 0, by norm_num, rfl, by decide⟩

/-- Claim C7 (amended): whenever the request carries a nonzero rating floor
in (0, 5], every product surviving `_apply_filters` has a rating and that
rating is at least the floor (so products without a rating are excluded);
and the filters are applied in the fixed order price ceiling, rating floor,
category substring. -/
theorem rating_floor_amended (products : List Product)
    (request : ProductSearchRequest) (m : ℚ) (hm : request.min_rating = some m)
    (h0 : 0 < m) (_h5 : m ≤ 5) :
    (∀ p ∈ _apply_filters products request, ∃ r, p.rating = some r ∧ m ≤ r.rating)
    ∧ _apply_filters products request
        = categoryStage (ratingStage (priceStage products request) request) request := by
  refine ⟨?_, rfl⟩
  intro p hp
  have hp2 : p ∈ ratingStage (priceStage products request) request := by
    unfold _apply_filters categoryStage at hp
    by_cases hc : pyTruthyStr request.category
    · rw [if_pos hc] at hp
      exact (List.mem_filter.mp hp).1
    · rwa [if_neg hc] at hp
  have htr : pyTruthyNum request.min_rating = true := by
    simp only [pyTruthyNum, hm, decide_eq_true_eq]
    exact ne_of_gt h0
  unfold ratingStage at hp2
  rw [if_pos htr] at hp2
  have hpred := (List.mem_filter.mp hp2).2
  cases hr : p.rating with
  | none => rw [hr] at hpred; simp at hpred
  | some r =>
    rw [hr] at hpred
    refine ⟨r, rfl, ?_⟩
    simp only [hm, Option.getD_some, decide_eq_true_eq] at hpred
    exact hpred

/-- Claim C7 (amended) witness: with floor 4, the surviving rated demo
product indeed carries a rating of at least 4. -/
theorem rating_floor_amended_witness :
    ∃ r, demoRated.rating = some r ∧ (4 : ℚ) ≤ r.rating :=
  (rating_floor_amended [demoRated] demoReqFloor4 4 rfl (by norm_num) (by norm_num)).1
    demoRated (by decide)

/-- Claim C9: the scraper boundary never propagates a failure — whenever any
stage of the pipeline (URL building, fetch, parse) raises, `search_products`
returns the empty list, and every product it does return is tagged with the
scraper's own platform identity and platform type. -/
theorem scraper_boundary_no_raise (s : ScraperBehavior) (query : String) (limit : ℕ) :
    (∀ e, search_pipeline s query limit = Except.error e →
        search_products s query limit = [])
    ∧ ∀ p ∈ search_products s query limit,
        p.platform = s.platform ∧ p.platform_type = s.platform_type := by
  constructor
  · intro e he
    simp [search_products, he]
  · intro p hp
    unfold search_products at hp
    cases hpipe : search_pipeline s query limit with
    | error e => rw [hpipe] at hp; simp at hp
    | ok ps =>
      rw [hpipe] at hp
      cases hu : s.get_search_url query with
      | error e =>
        simp only [search_pipeline, hu, except_bind_error] at hpipe
        simp at hpipe
      | ok url =>
        cases hf : s.fetch_page url with
        | error e =>
          simp only [search_pipeline, hu, hf, except_bind_ok, except_bind_error] at hpipe
          simp at hpipe
        | ok html? =>
          cases html? with
          | none =>
            simp only [search_pipeline, hu, hf, except_bind_ok] at hpipe
            simp only [pure, Except.pure, Except.ok.injEq] at hpipe
            subst hpipe
            simp at hp
          | some html =>
            by_cases hh : html = ""
            · simp only [search_pipeline, hu, hf, except_bind_ok, if_pos hh] at hpipe
              simp only [pure, Except.pure, Except.ok.injEq] at hpipe
              subst hpipe
              simp at hp
            · cases hps : s.parse_search_results html query with
              | error e =>
                simp only [search_pipeline, hu, hf, hps, except_bind_ok,
                  except_bind_error, if_neg hh] at hpipe
                simp at hpipe
              | ok products =>
                simp only [search_pipeline, hu, hf, hps, except_bind_ok,
                  if_neg hh] at hpipe
                simp only [pure, Except.pure, Except.ok.injEq] at hpipe
                subst hpipe
                obtain ⟨q, _hq, rfl⟩ := List.mem_map.mp hp
                exact ⟨rfl, rfl⟩

/-- Claim C9 witness: a scraper whose URL building raises yields the empty
list, and the product returned by a succeeding scraper carries that
scraper's platform identity and type. -/
theorem scraper_boundary_no_raise_witness :
    search_products demoScraperErr "laptop" 5 = []
    ∧ demoTagged.platform = demoScraperOk.platform
    ∧ demoTagged.platform_type = demoScraperOk.platform_type :=
  ⟨(scraper_boundary_no_raise demoScraperErr "laptop" 5).1 "boom" (by rfl),
    ((scraper_boundary_no_raise demoScraperOk "laptop" 5).2 demoTagged (by decide)).1,
    ((scraper_boundary_no_raise demoScraperOk "laptop" 5).2 demoTagged (by decide)).2⟩

end SmartShop
